/-
Verification of the Sticklet purchase-memory module (`src/utils/memory.py`
together with the id-fixing import scripts `convert_data.py` / `fix_json_ids.py`).

The SQLite-backed store is shallowly embedded as a pure state type `DB`
(purchase rows and item rows held in table order, which for these tables is
rowid/insertion order), and each store method becomes a function from `DB` to
`DB` and/or a result.  Raising an exception is modelled by `Except`; the
"unexpected database error" raised by the sqlite driver inside a method body is
modelled by a `fail : Bool` parameter on the methods that open a connection.
Python floats that are only stored and moved around (never rounded) are
modelled by `ℚ`.
-/
import Mathlib

namespace Sticklet

/-! ## Values of a loosely-typed JSON-ish document

`create_purchase_from_receipt_data` receives a dict produced from LLM output.
For the numeric slots (`total_amount`, `total`, `price`, `quantity`) the code
calls `float(...)` / `int(...)`, whose success depends on the runtime type, so
those slots are modelled by the value type `NVal`.  A slot holding Python
`None` and an absent key are both read through `dict.get`, which returns
`None` for both; the code never distinguishes them, so `NVal.nnull` models
"absent or null".  String-typed slots are modelled by `Option String` the same
way (`none` = absent or null). -/

inductive NVal where
  | nnull
  | nbool (b : Bool)
  | nint (n : ℤ)
  | nfloat (q : ℚ)
  | nstr (s : String)
deriving DecidableEq, Repr

def digitsToNat (ds : List Char) : ℕ :=
  ds.foldl (fun a c => a * 10 + (c.toNat - 48)) 0

/-- Digit span of a character list: the leading digits and the remainder. -/
def spanDigits (cs : List Char) : List Char × List Char :=
  (cs.takeWhile Char.isDigit, cs.dropWhile Char.isDigit)

/-- Unsigned decimal part of a Python float literal: `digits`, `digits.digits`,
`digits.` or `.digits`. -/
def parseUnsigned (cs : List Char) : Option (ℚ × List Char) :=
  let ip := (spanDigits cs).1
  let r1 := (spanDigits cs).2
  match r1 with
  | '.' :: r2 =>
      let fp := (spanDigits r2).1
      let r3 := (spanDigits r2).2
      if ip.isEmpty && fp.isEmpty then none
      else some ((digitsToNat ip : ℚ) + (digitsToNat fp : ℚ) / (10 : ℚ) ^ fp.length, r3)
  | _ => if ip.isEmpty then none else some ((digitsToNat ip : ℚ), r1)

/-- Optional exponent part `e[sign]digits` of a float literal.  Returns the
exponent (0 when there is none); a malformed exponent makes the whole literal
invalid, as in Python. -/
def parseExpPart (cs : List Char) : Option (ℤ × List Char) :=
  match cs with
  | c :: r1 =>
      if c = 'e' || c = 'E' then
        let signed : Bool × List Char :=
          match r1 with
          | '-' :: r2 => (true, r2)
          | '+' :: r2 => (false, r2)
          | _ => (false, r1)
        let ds := (spanDigits signed.2).1
        let r3 := (spanDigits signed.2).2
        if ds.isEmpty then none
        else some (if signed.1 then -(digitsToNat ds : ℤ) else (digitsToNat ds : ℤ), r3)
      else some (0, cs)
  | [] => some (0, [])

/-- Python `float(s)` on a string: optional surrounding whitespace, optional
sign, decimal literal with optional exponent.  (The rarer accepted forms —
`inf`, `nan`, underscore separators — are outside the model; no claim
exercises them.) -/
def pyFloatOfString (s : String) : Option ℚ :=
  let cs := s.data.dropWhile Char.isWhitespace
  let signed : Bool × List Char :=
    match cs with
    | '-' :: r => (true, r)
    | '+' :: r => (false, r)
    | _ => (false, cs)
  match parseUnsigned signed.2 with
  | none => none
  | some (v, r1) =>
    match parseExpPart r1 with
    | none => none
    | some (e, r2) =>
      if (r2.dropWhile Char.isWhitespace).isEmpty then
        some ((if signed.1 then -v else v) * (10 : ℚ) ^ e)
      else none

/-- Python `float(x)`: fails on `None`, succeeds on bools and numbers,
parses strings. -/
def pyFloat? : NVal → Option ℚ
  | NVal.nnull => none
  | NVal.nbool b => some (if b then 1 else 0)
  | NVal.nint n => some (n : ℚ)
  | NVal.nfloat q => some q
  | NVal.nstr s => pyFloatOfString s

/-- Truncation toward zero, as Python `int(float)`. -/
def ratTrunc (q : ℚ) : ℤ :=
  if 0 ≤ q then ⌊q⌋ else ⌈q⌉

/-- Python `int(s)` on a string: optional whitespace, optional sign, digits. -/
def pyIntOfString (s : String) : Option ℤ :=
  let cs := s.data.dropWhile Char.isWhitespace
  let signed : Bool × List Char :=
    match cs with
    | '-' :: r => (true, r)
    | '+' :: r => (false, r)
    | _ => (false, cs)
  let ds := (spanDigits signed.2).1
  let r1 := (spanDigits signed.2).2
  if ds.isEmpty then none
  else if (r1.dropWhile Char.isWhitespace).isEmpty then
    some (if signed.1 then -(digitsToNat ds : ℤ) else (digitsToNat ds : ℤ))
  else none

/-- Python `int(x)`. -/
def pyInt? : NVal → Option ℤ
  | NVal.nnull => none
  | NVal.nbool b => some (if b then 1 else 0)
  | NVal.nint n => some n
  | NVal.nfloat q => some (ratTrunc q)
  | NVal.nstr s => pyIntOfString s

/-- Python truthiness of a string slot read via `dict.get`: `None` (or an
absent key) and the empty string are falsy. -/
def strTruthy : Option String → Bool
  | none => false
  | some s => !(s = "")

/-! ## Record model (`PurchaseItem`, `Purchase` dataclasses) -/

structure PurchaseItem where
  name : String
  price : ℚ
  quantity : ℤ
  category : String
deriving DecidableEq, Repr

/-- The `Purchase` dataclass.  The dataclass default for `id` is
`datetime.datetime.now().strftime("%Y%m%d%H%M%S")`; the already-formatted
timestamp is passed in as the `now` argument wherever a `Purchase` is built
without an explicit id. -/
structure Purchase where
  merchant_name : String
  transaction_date : String
  total_amount : ℚ
  items : List PurchaseItem
  currency : String
  payment_method : Option String
  notes : List String
  id : String
deriving DecidableEq, Repr

/-! ## The receipt document consumed by `create_purchase_from_receipt_data` -/

structure ItemDoc where
  name : Option String := none
  price : NVal := NVal.nnull
  quantity : Option NVal := none
  category : Option String := none
deriving DecidableEq, Repr

structure ReceiptDoc where
  merchant_name : Option String := none
  transaction_date : Option String := none
  total_amount : NVal := NVal.nnull
  store : Option String := none
  date : Option String := none
  total : NVal := NVal.nnull
  items : List ItemDoc := []
  currency : Option String := none
  payment_method : Option String := none
deriving DecidableEq, Repr

/-- Alias pass for the merchant: the code keeps `merchant_name` when truthy and
otherwise falls back to the `store` key (memory.py lines 580, 591-593).  In the
code the alias block only runs when some required field was missing, but each
alias is individually guarded by the same falsiness test, so field-wise
resolution is equivalent; a falsy merchant with no `store` key stays falsy
(whether `None` or `""`), which downstream only tests for truthiness. -/
def resolveMerchant (doc : ReceiptDoc) : Option String :=
  match doc.merchant_name with
  | some s => if s = "" then doc.store else some s
  | none => doc.store

/-- Alias pass for the date (`date` key, memory.py lines 595-597). -/
def resolveDate (doc : ReceiptDoc) : Option String :=
  match doc.transaction_date with
  | some s => if s = "" then doc.date else some s
  | none => doc.date

/-- Alias pass for the total: `total_amount` is kept unless it `is None`
(memory.py lines 599-601). -/
def resolveTotal (doc : ReceiptDoc) : NVal :=
  match doc.total_amount with
  | NVal.nnull => doc.total
  | v => v

/-- One iteration of the item loop (memory.py lines 663-689): skip on falsy
name, skip on `None` price, then build the item inside a `try` block, so a
failing `float(price)` or `int(quantity)` also just skips the item.
`quantity` defaults to 1 and `category` to "Other" when the key is absent. -/
def mkItem? (it : ItemDoc) : Option PurchaseItem :=
  match it.name with
  | none => none
  | some nm =>
    if nm = "" then none
    else
      match it.price with
      | NVal.nnull => none
      | pv =>
        match pyFloat? pv with
        | none => none
        | some pf =>
          match pyInt? (it.quantity.getD (NVal.nint 1)) with
          | none => none
          | some q => some { name := nm, price := pf, quantity := q, category := it.category.getD "Other" }

def processItems (its : List ItemDoc) : List PurchaseItem :=
  its.filterMap mkItem?

def dateFallbackNote : String :=
  "Date could not be read from receipt; using today's date as fallback."

/-! ## Date normalization (memory.py lines 627-646)

The code tries `datetime.datetime.strptime` with the six formats
`"%Y-%m-%d", "%m/%d/%Y", "%d/%m/%Y", "%Y/%m/%d", "%B %d, %Y", "%d %B %Y"` in
order and reformats the first success with `strftime("%Y-%m-%d")`; if none
parses (including calendar-invalid dates, which make the datetime constructor
raise) the original string is kept.  CPython's `_strptime` matches `%Y` as
exactly four digits, `%m`/`%d` as one or two digits, `%B` as a full month name
case-insensitively, and whitespace in the format as a nonempty whitespace run;
the whole input must be consumed. -/

inductive FTok where
  | Y
  | Mo
  | D
  | B
  | ws
  | lit (c : Char)
deriving DecidableEq, Repr

def fmtIsoToks : List FTok := [FTok.Y, FTok.lit '-', FTok.Mo, FTok.lit '-', FTok.D]
def fmtMdyToks : List FTok := [FTok.Mo, FTok.lit '/', FTok.D, FTok.lit '/', FTok.Y]
def fmtDmyToks : List FTok := [FTok.D, FTok.lit '/', FTok.Mo, FTok.lit '/', FTok.Y]
def fmtYmdSlashToks : List FTok := [FTok.Y, FTok.lit '/', FTok.Mo, FTok.lit '/', FTok.D]
def fmtBdyToks : List FTok := [FTok.B, FTok.ws, FTok.D, FTok.lit ',', FTok.ws, FTok.Y]
def fmtDbyToks : List FTok := [FTok.D, FTok.ws, FTok.B, FTok.ws, FTok.Y]

def dateFormatList : List (List FTok) :=
  [fmtIsoToks, fmtMdyToks, fmtDmyToks, fmtYmdSlashToks, fmtBdyToks, fmtDbyToks]

/-- Read exactly `k` digit characters, extending the accumulator. -/
def readFixedDigits (k : ℕ) (acc : ℕ) (cs : List Char) : Option (ℕ × List Char) :=
  match k with
  | 0 => some (acc, cs)
  | k + 1 =>
    match cs with
    | c :: rest => if c.isDigit then readFixedDigits k (acc * 10 + (c.toNat - 48)) rest else none
    | [] => none

/-- Read one or two digit characters, greedily (the following token in every
format is a non-digit, so greediness is exact). -/
def readOneTwoDigits (cs : List Char) : Option (ℕ × List Char) :=
  match cs with
  | c :: rest =>
    if c.isDigit then
      match rest with
      | c2 :: rest2 =>
        if c2.isDigit then some ((c.toNat - 48) * 10 + (c2.toNat - 48), rest2)
        else some (c.toNat - 48, rest)
      | [] => some (c.toNat - 48, [])
    else none
  | [] => none

def monthNameList : List String :=
  ["january", "february", "march", "april", "may", "june",
   "july", "august", "september", "october", "november", "december"]

/-- Case-insensitively strip a (lowercase) month name from the front. -/
def stripNameCI : List Char → List Char → Option (List Char)
  | [], rest => some rest
  | n :: ns, c :: rest => if c.toLower = n then stripNameCI ns rest else none
  | _ :: _, [] => none

def readMonthFrom (names : List String) (idx : ℕ) (cs : List Char) : Option (ℕ × List Char) :=
  match names with
  | [] => none
  | n :: ns =>
    match stripNameCI n.data cs with
    | some rest => some (idx, rest)
    | none => readMonthFrom ns (idx + 1) cs

def readMonthName (cs : List Char) : Option (ℕ × List Char) :=
  readMonthFrom monthNameList 1 cs

/-- Run a format over the input, accumulating year, month and day.  Every
format mentions each of them exactly once; the input must be fully consumed. -/
def runFmt : List FTok → List Char → ℕ → ℕ → ℕ → Option (ℕ × ℕ × ℕ)
  | [], [], y, mo, d => some (y, mo, d)
  | [], _ :: _, _, _, _ => none
  | FTok.lit c :: fs, cs, y, mo, d =>
    match cs with
    | c2 :: rest => if c2 = c then runFmt fs rest y mo d else none
    | [] => none
  | FTok.ws :: fs, cs, y, mo, d =>
    match cs with
    | c2 :: rest =>
      if c2.isWhitespace then runFmt fs (rest.dropWhile Char.isWhitespace) y mo d else none
    | [] => none
  | FTok.Y :: fs, cs, _, mo, d =>
    (readFixedDigits 4 0 cs).bind fun vr => runFmt fs vr.2 vr.1 mo d
  | FTok.Mo :: fs, cs, y, _, d =>
    (readOneTwoDigits cs).bind fun vr => runFmt fs vr.2 y vr.1 d
  | FTok.D :: fs, cs, y, mo, _ =>
    (readOneTwoDigits cs).bind fun vr => runFmt fs vr.2 y mo vr.1
  | FTok.B :: fs, cs, y, _, d =>
    (readMonthName cs).bind fun vr => runFmt fs vr.2 y vr.1 d

def isLeapYear (y : ℕ) : Bool :=
  (y % 4 = 0 && !(y % 100 = 0)) || y % 400 = 0

def daysInMonth (y mo : ℕ) : ℕ :=
  if mo = 2 then (if isLeapYear y then 29 else 28)
  else if mo = 4 || mo = 6 || mo = 9 || mo = 11 then 30
  else 31

/-- Calendar validity enforced by the `datetime.date` constructor
(year 1..9999). -/
def validDate (y mo d : ℕ) : Bool :=
  1 ≤ y && y ≤ 9999 && 1 ≤ mo && mo ≤ 12 && 1 ≤ d && d ≤ daysInMonth y mo

def parseWithFmt (f : List FTok) (cs : List Char) : Option (ℕ × ℕ × ℕ) :=
  (runFmt f cs 0 0 0).bind fun ymd =>
    if validDate ymd.1 ymd.2.1 ymd.2.2 then some ymd else none

def tryFormats : List (List FTok) → List Char → Option (ℕ × ℕ × ℕ)
  | [], _ => none
  | f :: fs, cs =>
    match parseWithFmt f cs with
    | some r => some r
    | none => tryFormats fs cs

/-- A digit character. -/
def dchar (k : ℕ) : Char := Char.ofNat (48 + k)

/-- Four-digit zero-padded decimal, as `strftime("%Y")` for years up to 9999. -/
def digits4 (n : ℕ) : List Char :=
  [dchar (n / 1000 % 10), dchar (n / 100 % 10), dchar (n / 10 % 10), dchar (n % 10)]

/-- Two-digit zero-padded decimal, as `strftime("%m")` / `strftime("%d")`. -/
def digits2 (n : ℕ) : List Char :=
  [dchar (n / 10 % 10), dchar (n % 10)]

/-- `date(y, mo, d).strftime("%Y-%m-%d")`. -/
def isoString (y mo d : ℕ) : String :=
  String.mk (digits4 y ++ '-' :: (digits2 mo ++ '-' :: digits2 d))

/-- The date-normalization step of memory.py lines 627-646: the first format
that parses to a calendar-valid date wins and the date is reprinted in ISO
form; otherwise the string is returned unchanged. -/
def normalizeDateStr (s : String) : String :=
  match tryFormats dateFormatList s.data with
  | some (y, mo, d) => isoString y mo d
  | none => s

/-! ## `create_purchase_from_receipt_data` (memory.py lines 554-718)

The function is wrapped in a `try` that returns `None` on any exception, so it
is total; `today` stands for `datetime.date.today().strftime("%Y-%m-%d")` and
`now` for the dataclass id default `datetime.now().strftime("%Y%m%d%H%M%S")`.
The two places that return `None` for the total — the explicit
`total_amount is None` check on line 618 and a raising `float(total_amount)`
on lines 657/697/705 — are folded into the single test
`pyFloat? (resolveTotal doc) = none`, since `float(None)` also raises. -/

/-- The date stored on the purchase: the (possibly alias-resolved) date when
truthy, else `today`, then passed through format normalization. -/
def purchaseDateOf (doc : ReceiptDoc) (today : String) : String :=
  normalizeDateStr
    (match resolveDate doc with
     | some s => if s = "" then today else s
     | none => today)

/-- Notes are empty except for the fallback note recorded when the date was
missing (memory.py lines 622-625). -/
def purchaseNotesOf (doc : ReceiptDoc) : List String :=
  if strTruthy (resolveDate doc) then [] else [dateFallbackNote]

/-- Item list with the "Receipt total" fallback when the input had no items or
every item was dropped (memory.py lines 652-660 and 691-699). -/
def purchaseItemsOf (doc : ReceiptDoc) (t : ℚ) : List PurchaseItem :=
  let processed := processItems doc.items
  if processed.isEmpty then
    [{ name := "Receipt total", price := t, quantity := 1, category := "Other" }]
  else processed

/-- The purchase built on the success path (memory.py lines 701-713). -/
def builtPurchase (doc : ReceiptDoc) (today now : String) (m : String) (t : ℚ) : Purchase :=
  { merchant_name := m
    transaction_date := purchaseDateOf doc today
    total_amount := t
    items := purchaseItemsOf doc t
    currency := doc.currency.getD "USD"
    payment_method := doc.payment_method
    notes := purchaseNotesOf doc
    id := now }

def create_purchase_from_receipt_data (doc : ReceiptDoc) (today now : String) : Option Purchase :=
  match resolveMerchant doc with
  | none => none
  | some m =>
    if m = "" then none
    else
      match pyFloat? (resolveTotal doc) with
      | none => none
      | some t => some (builtPurchase doc today now m t)

/-! ## The SQLite store (`PurchaseMemory`)

A `DB` holds the two tables in table order.  For both tables an unordered
`SELECT` returns rows in rowid order, which (ordinary rowid tables, id values
never reused in a scan) is insertion order with `UPDATE` keeping a row in
place and `DELETE` removing it; so lists with append/in-place-map/filter model
the observable row order.  The `notes` column stores
`json.dumps(purchase.notes)` or NULL for an empty list; since
`json.loads(json.dumps(l)) = l` for a list of strings, the column is modelled
by its decoded value `Option (List String)` (`none` = NULL).  `intact` is the
schema flag: the modelled `DROP TABLE purchases` statement clears it.
Methods that open a connection take a `fail : Bool` modelling an unexpected
sqlite error inside the `try` body. -/

structure PurchaseRow where
  id : String
  merchant_name : String
  transaction_date : String
  total_amount : ℚ
  currency : String
  payment_method : Option String
  notes : Option (List String)
deriving DecidableEq, Repr

structure ItemRow where
  purchase_id : String
  name : String
  price : ℚ
  quantity : ℤ
  category : String
deriving DecidableEq, Repr

structure DB where
  purchases : List PurchaseRow
  items : List ItemRow
  intact : Bool
deriving DecidableEq, Repr

def emptyDB : DB := { purchases := [], items := [], intact := true }

/-- `json.dumps(purchase.notes) if purchase.notes else None`
(memory.py lines 130, 156), by decoded value. -/
def notesToCol (ns : List String) : Option (List String) :=
  if ns = [] then none else some ns

/-- Reading the `notes` column back (memory.py lines 274-279): NULL gives
`[]`. -/
def notesOfCol : Option (List String) → List String
  | none => []
  | some l => l

/-- The row inserted for a fresh purchase (memory.py lines 158-173). -/
def purchaseRowOf (p : Purchase) : PurchaseRow :=
  { id := p.id
    merchant_name := p.merchant_name
    transaction_date := p.transaction_date
    total_amount := p.total_amount
    currency := p.currency
    payment_method := p.payment_method
    notes := notesToCol p.notes }

/-- The `UPDATE` of memory.py lines 132-148: every scalar column except the
key is overwritten. -/
def updatedRow (r : PurchaseRow) (p : Purchase) : PurchaseRow :=
  { r with
    merchant_name := p.merchant_name
    transaction_date := p.transaction_date
    total_amount := p.total_amount
    currency := p.currency
    payment_method := p.payment_method
    notes := notesToCol p.notes }

/-- The item rows inserted for a purchase, in list order
(memory.py lines 176-191). -/
def itemRowsOf (p : Purchase) : List ItemRow :=
  p.items.map fun it =>
    { purchase_id := p.id, name := it.name, price := it.price,
      quantity := it.quantity, category := it.category }

/-- State transition of `add_purchase` (memory.py lines 121-193): if a row
with the id exists, update it and replace the whole item set
(delete-then-reinsert); otherwise insert the purchase row and its items. -/
def addCore (db : DB) (p : Purchase) : DB :=
  if db.purchases.any (fun r => r.id == p.id) then
    { db with
      purchases := db.purchases.map fun r => if r.id == p.id then updatedRow r p else r
      items := db.items.filter (fun ir => !(ir.purchase_id == p.id)) ++ itemRowsOf p }
  else
    { db with
      purchases := db.purchases ++ [purchaseRowOf p]
      items := db.items ++ itemRowsOf p }

/-- `add_purchase`: on an unexpected error the transaction is rolled back
(state unchanged) and the exception propagates; on success the purchase id is
returned (memory.py lines 104-211). -/
def add_purchase (db : DB) (p : Purchase) (fail : Bool) : DB × Except String String :=
  if fail then (db, Except.error "database error")
  else (addCore db p, Except.ok p.id)

/-- `delete_purchase`: items first, then the purchase row; rollback and
re-raise on error (memory.py lines 213-236). -/
def delete_purchase (db : DB) (pid : String) (fail : Bool) : DB × Except String Unit :=
  if fail then (db, Except.error "database error")
  else
    ({ db with
       purchases := db.purchases.filter (fun r => !(r.id == pid))
       items := db.items.filter (fun ir => !(ir.purchase_id == pid)) },
     Except.ok ())

/-- Rehydration of one purchase row with its items
(memory.py lines 254-291). -/
def rehydrate (db : DB) (r : PurchaseRow) : Purchase :=
  { merchant_name := r.merchant_name
    transaction_date := r.transaction_date
    total_amount := r.total_amount
    items := (db.items.filter fun ir => ir.purchase_id == r.id).map fun ir =>
      { name := ir.name, price := ir.price, quantity := ir.quantity, category := ir.category }
    currency := r.currency
    payment_method := r.payment_method
    notes := notesOfCol r.notes
    id := r.id }

/-- `get_all_purchases`: full scan; any unexpected error is swallowed and an
empty list returned (memory.py lines 238-301). -/
def get_all_purchases (db : DB) (fail : Bool) : List Purchase :=
  if fail then [] else db.purchases.map (rehydrate db)

/-- Case-insensitive `LIKE '%pat%'` on a text column, for patterns without
wildcard characters. -/
def likeContains (field pat : String) : Bool :=
  decide (pat.toLower.data <:+: field.toLower.data)

/-- `get_purchases_by_merchant` (memory.py lines 303-372). -/
def get_purchases_by_merchant (db : DB) (name : String) (fail : Bool) : List Purchase :=
  if fail then []
  else (db.purchases.filter fun r => likeContains r.merchant_name name).map (rehydrate db)

/-- `get_purchases_by_date_range`: SQL `BETWEEN` on a TEXT column is an
inclusive lexicographic comparison (memory.py lines 374-444). -/
def get_purchases_by_date_range (db : DB) (startDate endDate : String) (fail : Bool) : List Purchase :=
  if fail then []
  else
    (db.purchases.filter fun r =>
      decide (startDate ≤ r.transaction_date) && decide (r.transaction_date ≤ endDate)).map
      (rehydrate db)

/-- `get_purchases_by_category`: purchases having at least one item whose
category matches, each once (`SELECT DISTINCT p.*`, memory.py lines 446-519). -/
def get_purchases_by_category (db : DB) (category : String) (fail : Bool) : List Purchase :=
  if fail then []
  else
    (db.purchases.filter fun r =>
      db.items.any fun ir => ir.purchase_id == r.id && likeContains ir.category category).map
      (rehydrate db)

/-! ## `execute_query` (memory.py lines 521-551)

The guard is the code's own
`query.strip().lower().startswith("select")`.  What happens past the guard is
the sqlite3 driver: `cursor.execute` refuses strings containing more than one
SQL statement, and a single `SELECT` statement cannot modify data or schema.
The driver is modelled on a small statement fragment: the canonical full scan
`select * from purchases`, a mutating `drop table purchases`, and everything
else an error; statements outside the fragment are unmodelled and conservatively
error (still leaving the state unchanged, as a single SELECT does). -/

inductive ColVal where
  | text (s : String)
  | real (q : ℚ)
  | null
  | noteJson (ns : List String)
deriving DecidableEq, Repr

def optTextCol : Option String → ColVal
  | none => ColVal.null
  | some s => ColVal.text s

def notesColVal : Option (List String) → ColVal
  | none => ColVal.null
  | some ns => ColVal.noteJson ns

/-- `dict(row)` for a `sqlite3.Row` of the purchases table: a field-name-keyed
mapping in schema column order (memory.py line 544). -/
def purchaseRowMapping (r : PurchaseRow) : List (String × ColVal) :=
  [("id", ColVal.text r.id),
   ("merchant_name", ColVal.text r.merchant_name),
   ("transaction_date", ColVal.text r.transaction_date),
   ("total_amount", ColVal.real r.total_amount),
   ("currency", ColVal.text r.currency),
   ("payment_method", optTextCol r.payment_method),
   ("notes", notesColVal r.notes)]

/-- Python `str.strip()`: remove surrounding whitespace. -/
def pyStrip (s : String) : String :=
  String.mk (((s.data.dropWhile Char.isWhitespace).reverse.dropWhile Char.isWhitespace).reverse)

/-- Python `str.lower()` (ASCII case folding; the SQL keywords involved are
ASCII). -/
def pyLower (s : String) : String :=
  String.mk (s.data.map Char.toLower)

def charsStartWith : List Char → List Char → Bool
  | [], _ => true
  | _ :: _, [] => false
  | p :: ps, c :: cs => p = c && charsStartWith ps cs

/-- Python `str.startswith(pre)`. -/
def pyStartsWith (s pre : String) : Bool :=
  charsStartWith pre.data s.data

/-- The guard expression of memory.py line 531:
`query.strip().lower().startswith("select")`. -/
def startsWithSelect (q : String) : Bool :=
  pyStartsWith (pyLower (pyStrip q)) "select"

/-- True when a `;` is followed by any non-whitespace, non-`;` character:
the string then holds a second statement and `cursor.execute` raises
(queries with semicolons inside string literals are outside the model). -/
def hasSecondStmtAux : List Char → Bool → Bool
  | [], _ => false
  | c :: cs, seen =>
    if c = ';' then hasSecondStmtAux cs true
    else if seen && !c.isWhitespace then true
    else hasSecondStmtAux cs seen

def hasSecondStatement (q : String) : Bool :=
  hasSecondStmtAux q.data false

/-- Trailing semicolons and whitespace of a single statement are
insignificant. -/
def stripTrailingJunk (s : String) : String :=
  String.mk ((s.data.reverse.dropWhile fun c => c = ';' || c.isWhitespace).reverse)

inductive SqlStmt where
  | selectAllPurchases
  | otherSelect
  | dropTablePurchases
  | otherStmt
deriving DecidableEq, Repr

/-- Classification of a single SQL statement within the modelled fragment. -/
def classifyStmt (q : String) : SqlStmt :=
  if startsWithSelect q then
    (if stripTrailingJunk (pyLower (pyStrip q)) = "select * from purchases" then
       SqlStmt.selectAllPurchases
     else SqlStmt.otherSelect)
  else if stripTrailingJunk (pyLower (pyStrip q)) = "drop table purchases" then
    SqlStmt.dropTablePurchases
  else SqlStmt.otherStmt

/-- Model of `cursor.execute(q)` + `fetchall` on the raw query string. -/
def sqliteExecute (db : DB) (q : String) : DB × Except String (List (List (String × ColVal))) :=
  if hasSecondStatement q then
    (db, Except.error "You can only execute one statement at a time.")
  else
    match classifyStmt q with
    | SqlStmt.selectAllPurchases => (db, Except.ok (db.purchases.map purchaseRowMapping))
    | SqlStmt.otherSelect => (db, Except.error "unmodelled SELECT statement")
    | SqlStmt.dropTablePurchases =>
      ({ purchases := [], items := db.items, intact := false }, Except.ok [])
    | SqlStmt.otherStmt => (db, Except.error "unmodelled statement")

/-- `execute_query` (memory.py lines 521-551): the prefix guard raises before
anything touches the database; past it, an unexpected driver error is
re-raised (not swallowed); otherwise the statement runs. -/
def execute_query (db : DB) (q : String) (fail : Bool) :
    DB × Except String (List (List (String × ColVal))) :=
  if !(startsWithSelect q) then
    (db, Except.error "Only SELECT queries are allowed")
  else if fail then (db, Except.error "database error")
  else sqliteExecute db q

/-! ## Deterministic id derivation in the import scripts
(`fix_json_ids.fix_json_ids`, and the same loop in
`convert_data.import_from_json`) -/

structure JsonRec where
  merchant_name : String
  transaction_date : String
  id : String
deriving DecidableEq, Repr

def merchantKey (r : JsonRec) : String :=
  r.merchant_name ++ "_" ++ r.transaction_date

/-- Models `str(uuid.uuid5(uuid.NAMESPACE_DNS, s))`.  The SHA-1-based digest
itself is not embedded; all that the code's id contract uses is that the uuid
is a pure function of the key string, which any concrete function provides. -/
def uuid5dns (s : String) : String :=
  "uuid5-dns:" ++ s

def bumpAssoc (counts : List (String × ℕ)) (k : String) (v : ℕ) : List (String × ℕ) :=
  counts.map fun kv => if kv.1 == k then (kv.1, v) else kv

/-- The id-assignment loop of fix_json_ids.py lines 35-51: first occurrence of
a `merchant_date` key gets `uuid5(key)`, the n-th repeat gets
`uuid5(key_n)`. -/
def assignIds (counts : List (String × ℕ)) : List JsonRec → List JsonRec
  | [] => []
  | r :: rs =>
    match counts.lookup (merchantKey r) with
    | some c =>
      { r with id := uuid5dns (merchantKey r ++ "_" ++ toString (c + 1)) } ::
        assignIds (bumpAssoc counts (merchantKey r) (c + 1)) rs
    | none =>
      { r with id := uuid5dns (merchantKey r) } :: assignIds ((merchantKey r, 1) :: counts) rs

def fix_json_ids (rs : List JsonRec) : List JsonRec :=
  assignIds [] rs

/-! ## Invariants and concrete fixtures -/

/-- Orphan-freedom of the items table: every item row belongs to some purchase
row.  This is the foreign-key invariant every reachable store state satisfies;
items are only inserted together with their purchase row and are deleted
before (or with) it. -/
def NoOrphans (db : DB) : Prop :=
  ∀ ir ∈ db.items, ∃ r ∈ db.purchases, r.id = ir.purchase_id

def exItemA : PurchaseItem :=
  { name := "Milk", price := 399/100, quantity := 1, category := "Grocery" }

def exItemB : PurchaseItem :=
  { name := "Bread", price := 2, quantity := 2, category := "Grocery" }

def exPurchase1 : Purchase :=
  { merchant_name := "Walmart", transaction_date := "2024-01-01", total_amount := 1163/100,
    items := [exItemA], currency := "USD", payment_method := some "card",
    notes := ["a note"], id := "P1" }

/-- Same id as `exPurchase1`, different scalars and item list. -/
def exPurchase2 : Purchase :=
  { merchant_name := "Target", transaction_date := "2024-02-03", total_amount := 7,
    items := [exItemB, exItemA], currency := "EUR", payment_method := none,
    notes := [], id := "P1" }

def exDB : DB :=
  { purchases := [{ id := "P1", merchant_name := "Walmart", transaction_date := "2024-01-01",
                    total_amount := 1163/100, currency := "USD", payment_method := some "card",
                    notes := some ["a note"] }],
    items := [{ purchase_id := "P1", name := "Milk", price := 399/100, quantity := 1,
                category := "Grocery" }],
    intact := true }

def docNoMerchant : ReceiptDoc :=
  { total_amount := NVal.nint 5 }

def docC4 : ReceiptDoc :=
  { merchant_name := some "Shop", transaction_date := some "2024-01-02",
    total_amount := NVal.nint 5 }

/-- The spec's scenario document: aliases only, no date, one item. -/
def docC9 : ReceiptDoc :=
  { store := some "Walmart", total := NVal.nfloat (1163/100),
    items := [{ name := some "Milk", price := NVal.nfloat (399/100) }] }

/-- Document with a negative total and a negative item price. -/
def negDoc : ReceiptDoc :=
  { merchant_name := some "Shop", transaction_date := some "2024-01-02",
    total_amount := NVal.nfloat (-5),
    items := [{ name := some "Widget", price := NVal.nfloat (-1) }] }

def badTotalDoc : ReceiptDoc :=
  { merchant_name := some "Shop", transaction_date := some "2024-01-02",
    total_amount := NVal.nstr "abc" }

def badPriceItem : ItemDoc :=
  { name := some "Widget", price := NVal.nstr "oops" }

/-- The same receipt document normalized twice (same logical receipt). -/
def dupDoc : ReceiptDoc :=
  { merchant_name := some "Walmart", transaction_date := some "2024-01-01",
    total_amount := NVal.nfloat (1163/100) }

/-! ## Store lemmas -/

theorem notesOfCol_notesToCol (ns : List String) : notesOfCol (notesToCol ns) = ns := by
  by_cases h : ns = [] <;> simp [notesToCol, notesOfCol, h]

theorem itemRows_filter_key (p : Purchase) :
    (itemRowsOf p).filter (fun ir => ir.purchase_id == p.id) = itemRowsOf p := by
  rw [List.filter_eq_self]
  intro ir hir
  simp only [itemRowsOf, List.mem_map] at hir
  obtain ⟨it, _, rfl⟩ := hir
  simp

theorem itemRows_filter_not_key (p : Purchase) :
    (itemRowsOf p).filter (fun ir => !(ir.purchase_id == p.id)) = [] := by
  rw [List.filter_eq_nil_iff]
  intro ir hir
  simp only [itemRowsOf, List.mem_map] at hir
  obtain ⟨it, _, rfl⟩ := hir
  simp

theorem filter_key_of_filter_not (l : List ItemRow) (k : String) :
    (l.filter fun ir => !(ir.purchase_id == k)).filter (fun ir => ir.purchase_id == k) = [] := by
  rw [List.filter_filter, List.filter_eq_nil_iff]
  intro ir _
  simp

theorem map_rehydrate_itemRows (p : Purchase) :
    ((itemRowsOf p).map fun ir =>
      ({ name := ir.name, price := ir.price, quantity := ir.quantity,
         category := ir.category } : PurchaseItem)) = p.items := by
  rw [itemRowsOf, List.map_map]
  exact List.map_id p.items

theorem updatedRow_eq_rowOf (r : PurchaseRow) (p : Purchase) (h : r.id = p.id) :
    updatedRow r p = purchaseRowOf p := by
  cases r
  simp_all [updatedRow, purchaseRowOf]

theorem rehydrate_of_rowOf (db2 : DB) (p : Purchase)
    (hitems : db2.items.filter (fun ir => ir.purchase_id == p.id) = itemRowsOf p) :
    rehydrate db2 (purchaseRowOf p) = p := by
  obtain ⟨mn, td, ta, its, cu, pm, ns, pid⟩ := p
  simp only [rehydrate, purchaseRowOf] at *
  rw [hitems, map_rehydrate_itemRows, notesOfCol_notesToCol]

theorem addCore_purchases_of_mem (db : DB) (p : Purchase)
    (hex : db.purchases.any (fun r => r.id == p.id) = true) :
    (addCore db p).purchases =
      db.purchases.map (fun r => if r.id == p.id then updatedRow r p else r) := by
  simp [addCore, hex]

theorem addCore_items_of_mem (db : DB) (p : Purchase)
    (hex : db.purchases.any (fun r => r.id == p.id) = true) :
    (addCore db p).items =
      db.items.filter (fun ir => !(ir.purchase_id == p.id)) ++ itemRowsOf p := by
  simp [addCore, hex]

theorem addCore_purchases_of_not_mem (db : DB) (p : Purchase)
    (hex : db.purchases.any (fun r => r.id == p.id) = false) :
    (addCore db p).purchases = db.purchases ++ [purchaseRowOf p] := by
  simp [addCore, hex]

theorem addCore_items_of_not_mem (db : DB) (p : Purchase)
    (hex : db.purchases.any (fun r => r.id == p.id) = false) :
    (addCore db p).items = db.items ++ itemRowsOf p := by
  simp [addCore, hex]

theorem addCore_any_key (db : DB) (p : Purchase) :
    (addCore db p).purchases.any (fun r => r.id == p.id) = true := by
  by_cases hex : db.purchases.any (fun r => r.id == p.id) = true
  · rw [addCore_purchases_of_mem db p hex, List.any_map]
    obtain ⟨r, hr, hrid⟩ := List.any_eq_true.mp hex
    refine List.any_eq_true.mpr ⟨r, hr, ?_⟩
    simp only [Function.comp]
    rw [if_pos hrid]
    have : r.id = p.id := by simpa using hrid
    simp [updatedRow, this]
  · have hex' : db.purchases.any (fun r => r.id == p.id) = false := by simpa using hex
    rw [addCore_purchases_of_not_mem db p hex']
    simp [purchaseRowOf]

theorem filter_update_of_any (l : List PurchaseRow) (p : Purchase)
    (hnd : (l.map fun r => r.id).Nodup) (hex : l.any (fun r => r.id == p.id) = true) :
    (l.map fun r => if r.id == p.id then updatedRow r p else r).filter
      (fun r => r.id == p.id) = [purchaseRowOf p] := by
  induction l with
  | nil => simp at hex
  | cons r rs ih =>
    rw [List.map_cons, List.nodup_cons] at hnd
    by_cases h : r.id = p.id
    · have hb : (r.id == p.id) = true := by simp [h]
      rw [List.map_cons, if_pos hb, List.filter_cons]
      have hidu : ((updatedRow r p).id == p.id) = true := by simp [updatedRow, h]
      rw [if_pos hidu, updatedRow_eq_rowOf r p h]
      have htail : (rs.map fun r => if r.id == p.id then updatedRow r p else r).filter
          (fun r => r.id == p.id) = [] := by
        rw [List.filter_eq_nil_iff]
        intro x hx hxk
        obtain ⟨rr, hrr, rfl⟩ := List.mem_map.mp hx
        by_cases hk : (rr.id == p.id) = true
        · have hrid : rr.id = p.id := by simpa using hk
          exact hnd.1 (by rw [← h] at hrid; exact hrid ▸ List.mem_map.mpr ⟨rr, hrr, rfl⟩)
        · rw [if_neg hk] at hxk
          exact hk hxk
      rw [htail]
    · have hb : (r.id == p.id) = false := by simp [h]
      rw [List.map_cons, if_neg (by simp [hb]), List.filter_cons, if_neg (by simp [hb])]
      apply ih hnd.2
      rw [List.any_cons, hb, Bool.false_or] at hex
      exact hex

theorem filter_append_rowOf (l : List PurchaseRow) (p : Purchase)
    (hl : l.any (fun r => r.id == p.id) = false) :
    (l ++ [purchaseRowOf p]).filter (fun r => r.id == p.id) = [purchaseRowOf p] := by
  rw [List.filter_append]
  have h1 : l.filter (fun r => r.id == p.id) = [] := by
    rw [List.filter_eq_nil_iff]
    exact List.any_eq_false.mp hl
  rw [h1]
  simp [purchaseRowOf]

theorem addCore_twice_items (db : DB) (p1 p2 : Purchase) (hid : p1.id = p2.id) :
    (addCore (addCore db p1) p2).items =
      db.items.filter (fun ir => !(ir.purchase_id == p2.id)) ++ itemRowsOf p2 := by
  have h2 : (addCore db p1).purchases.any (fun r => r.id == p2.id) = true := by
    rw [← hid]
    exact addCore_any_key db p1
  rw [addCore_items_of_mem _ p2 h2]
  congr 1
  by_cases hex : db.purchases.any (fun r => r.id == p1.id) = true
  · rw [addCore_items_of_mem db p1 hex, List.filter_append, ← hid, List.filter_filter,
      itemRows_filter_not_key]
    simp
  · have hex' : db.purchases.any (fun r => r.id == p1.id) = false := by simpa using hex
    rw [addCore_items_of_not_mem db p1 hex', List.filter_append, ← hid, itemRows_filter_not_key]
    simp

theorem addCore_twice_purchases_filter (db : DB) (p1 p2 : Purchase) (hid : p1.id = p2.id)
    (hnd : (db.purchases.map fun r => r.id).Nodup) :
    (addCore (addCore db p1) p2).purchases.filter (fun r => r.id == p2.id) =
      [purchaseRowOf p2] := by
  have h2 : (addCore db p1).purchases.any (fun r => r.id == p2.id) = true := by
    rw [← hid]
    exact addCore_any_key db p1
  rw [addCore_purchases_of_mem _ p2 h2]
  by_cases hex : db.purchases.any (fun r => r.id == p1.id) = true
  · rw [addCore_purchases_of_mem db p1 hex, List.map_map]
    have hcomp : ((fun r => if r.id == p2.id then updatedRow r p2 else r) ∘
        (fun r => if r.id == p1.id then updatedRow r p1 else r)) =
        (fun r => if r.id == p2.id then updatedRow r p2 else r) := by
      funext r
      simp only [Function.comp]
      by_cases h : r.id = p1.id
      · have h2' : r.id = p2.id := hid ▸ h
        have hb1 : (r.id == p1.id) = true := beq_iff_eq.mpr h
        have hb2 : (r.id == p2.id) = true := beq_iff_eq.mpr h2'
        have hbu : ((updatedRow r p1).id == p2.id) = true := beq_iff_eq.mpr h2'
        rw [if_pos hb1]
        rw [if_pos hbu]
        rw [if_pos hb2]
        rfl
      · have h2' : ¬(r.id = p2.id) := fun hh => h (hid ▸ hh)
        have hn1 : ¬((r.id == p1.id) = true) := by simp [h]
        rw [if_neg hn1]
    rw [hcomp]
    exact filter_update_of_any db.purchases p2 hnd (hid ▸ hex)
  · have hex' : db.purchases.any (fun r => r.id == p1.id) = false := by simpa using hex
    rw [addCore_purchases_of_not_mem db p1 hex', List.map_append]
    have hmap : db.purchases.map (fun r => if r.id == p2.id then updatedRow r p2 else r) =
        db.purchases := by
      have hall : ∀ r ∈ db.purchases,
          (if r.id == p2.id then updatedRow r p2 else r) = r := by
        intro r hr
        have hfalse : ¬((r.id == p2.id) = true) := by
          intro hk
          have hk1 : (r.id == p1.id) = true := by rw [hid]; exact hk
          have : db.purchases.any (fun r => r.id == p1.id) = true :=
            List.any_eq_true.mpr ⟨r, hr, hk1⟩
          rw [this] at hex'
          exact Bool.true_eq_false.mp hex'
        rw [if_neg hfalse]
      rw [List.map_congr_left hall, List.map_id']
    rw [hmap]
    have hone : [purchaseRowOf p1].map (fun r => if r.id == p2.id then updatedRow r p2 else r) =
        [purchaseRowOf p2] := by
      have hkid : (purchaseRowOf p1).id = p2.id := hid ▸ rfl
      have hk : ((purchaseRowOf p1).id == p2.id) = true := beq_iff_eq.mpr hkid
      rw [List.map_cons, List.map_nil, if_pos hk, updatedRow_eq_rowOf (purchaseRowOf p1) p2 hkid]
    rw [hone]
    exact filter_append_rowOf db.purchases p2 (hid ▸ hex')

/-! ## Claim theorems -/

/-- Claim C1: for any Purchase `p` and any orphan-free store state, adding `p`
with `add_purchase` and then reading with `get_all_purchases` yields a list
containing a Purchase equal to `p` in every field — id, merchant_name,
transaction_date, total_amount, currency, payment_method, notes, and the item
list with the same order and values. -/
theorem C1_roundtrip (db : DB) (p : Purchase) (h : NoOrphans db) :
    p ∈ get_all_purchases ((add_purchase db p false).1) false := by
  show p ∈ (addCore db p).purchases.map (rehydrate (addCore db p))
  by_cases hex : db.purchases.any (fun r => r.id == p.id) = true
  · obtain ⟨r, hr, hrid⟩ := List.any_eq_true.mp hex
    have hrid' : r.id = p.id := by simpa using hrid
    have hmem : updatedRow r p ∈ (addCore db p).purchases := by
      rw [addCore_purchases_of_mem db p hex]
      exact List.mem_map.mpr ⟨r, hr, by rw [if_pos hrid]⟩
    refine List.mem_map.mpr ⟨updatedRow r p, hmem, ?_⟩
    rw [updatedRow_eq_rowOf r p hrid']
    apply rehydrate_of_rowOf
    rw [addCore_items_of_mem db p hex, List.filter_append, filter_key_of_filter_not,
      itemRows_filter_key]
    simp
  · have hex' : db.purchases.any (fun r => r.id == p.id) = false := by simpa using hex
    have hmem : purchaseRowOf p ∈ (addCore db p).purchases := by
      rw [addCore_purchases_of_not_mem db p hex']
      simp
    refine List.mem_map.mpr ⟨purchaseRowOf p, hmem, ?_⟩
    apply rehydrate_of_rowOf
    rw [addCore_items_of_not_mem db p hex', List.filter_append, itemRows_filter_key]
    have hnone : db.items.filter (fun ir => ir.purchase_id == p.id) = [] := by
      rw [List.filter_eq_nil_iff]
      intro ir hir hk
      obtain ⟨rr, hrr, hrrid⟩ := h ir hir
      have hk' : (rr.id == p.id) = true := by
        have : ir.purchase_id = p.id := by simpa using hk
        exact beq_iff_eq.mpr (hrrid.trans this)
      have : db.purchases.any (fun r => r.id == p.id) = true :=
        List.any_eq_true.mpr ⟨rr, hrr, hk'⟩
      rw [this] at hex'
      exact Bool.true_eq_false.mp hex'
    rw [hnone]
    simp

theorem C1_roundtrip_witness :
    NoOrphans emptyDB ∧
      exPurchase1 ∈ get_all_purchases ((add_purchase emptyDB exPurchase1 false).1) false := by
  have h : NoOrphans emptyDB := by
    intro ir hir
    simp [emptyDB] at hir
  exact ⟨h, C1_roundtrip emptyDB exPurchase1 h⟩

/-- Claim C2: adding two purchases with the same id (the store's purchase-row
ids being distinct, as the PRIMARY KEY guarantees) leaves exactly one purchase
with that id, whose scalar fields and whole item list are those of the second
purchase: the upsert replaces the entire item set with no duplicated purchase
row and no merge of the two item lists. -/
theorem C2_upsert_replaces (db : DB) (p1 p2 : Purchase) (hid : p1.id = p2.id)
    (hnd : (db.purchases.map fun r => r.id).Nodup) :
    (get_all_purchases ((add_purchase ((add_purchase db p1 false).1) p2 false).1) false).filter
      (fun q => q.id == p2.id) = [p2] := by
  show ((addCore (addCore db p1) p2).purchases.map
      (rehydrate (addCore (addCore db p1) p2))).filter (fun q => q.id == p2.id) = [p2]
  rw [List.filter_map]
  have hpred : ((fun q => q.id == p2.id) ∘ rehydrate (addCore (addCore db p1) p2)) =
      (fun r => r.id == p2.id) := rfl
  rw [hpred, addCore_twice_purchases_filter db p1 p2 hid hnd]
  have hitems : (addCore (addCore db p1) p2).items.filter
      (fun ir => ir.purchase_id == p2.id) = itemRowsOf p2 := by
    rw [addCore_twice_items db p1 p2 hid, List.filter_append, filter_key_of_filter_not,
      itemRows_filter_key]
    simp
  rw [List.map_cons, List.map_nil, rehydrate_of_rowOf _ p2 hitems]

theorem C2_upsert_replaces_witness :
    exPurchase1.id = exPurchase2.id ∧
      (get_all_purchases ((add_purchase ((add_purchase emptyDB exPurchase1 false).1)
        exPurchase2 false).1) false).filter (fun q => q.id == exPurchase2.id) = [exPurchase2] := by
  refine ⟨rfl, C2_upsert_replaces emptyDB exPurchase1 exPurchase2 rfl ?_⟩
  simp [emptyDB]

/-! ## Normalizer lemmas -/

theorem create_eq_some (doc : ReceiptDoc) (today now : String) (m : String) (t : ℚ)
    (h1 : resolveMerchant doc = some m) (h2 : ¬(m = ""))
    (h3 : pyFloat? (resolveTotal doc) = some t) :
    create_purchase_from_receipt_data doc today now =
      some (builtPurchase doc today now m t) := by
  unfold create_purchase_from_receipt_data
  simp [h1, h2, h3]

/-- Claim C3: whenever, after alias resolution, the merchant is missing
(falsy) or the total is missing or fails numeric coercion, normalization
returns `None`.  Not raising is inherent: the embedded function is total
because the Python body is wrapped in a catch-all `try` returning `None`. -/
theorem C3_missing_required_gives_none (doc : ReceiptDoc) (today now : String)
    (h : strTruthy (resolveMerchant doc) = false ∨ pyFloat? (resolveTotal doc) = none) :
    create_purchase_from_receipt_data doc today now = none := by
  unfold create_purchase_from_receipt_data
  rcases h with h | h
  · cases hm : resolveMerchant doc with
    | none => simp
    | some m =>
      rw [hm] at h
      have hm' : m = "" := by simpa [strTruthy] using h
      simp [hm']
  · cases hm : resolveMerchant doc with
    | none => simp
    | some m =>
      by_cases he : m = ""
      · simp [he]
      · simp [he, h]

theorem C3_missing_required_gives_none_witness :
    (strTruthy (resolveMerchant docNoMerchant) = false ∨
      pyFloat? (resolveTotal docNoMerchant) = none) ∧
    create_purchase_from_receipt_data docNoMerchant "2026-10-12" "20261012101010" = none :=
  ⟨Or.inl rfl,
   C3_missing_required_gives_none docNoMerchant "2026-10-12" "20261012101010" (Or.inl rfl)⟩

/-- Claim C4: whenever the merchant is present (truthy) and the total coerces,
normalization returns a Purchase whose item list is non-empty, and when the
document's items are absent or all dropped, the list is exactly the one
synthesized fallback item: name "Receipt total", price equal to the
purchase's total, quantity 1, category "Other". -/
theorem C4_nonempty_items (doc : ReceiptDoc) (today now : String) (m : String) (t : ℚ)
    (h1 : resolveMerchant doc = some m) (h2 : ¬(m = ""))
    (h3 : pyFloat? (resolveTotal doc) = some t) :
    create_purchase_from_receipt_data doc today now = some (builtPurchase doc today now m t) ∧
    (builtPurchase doc today now m t).items ≠ [] ∧
    (processItems doc.items = [] →
      (builtPurchase doc today now m t).items =
        [{ name := "Receipt total", price := t, quantity := 1, category := "Other" }]) ∧
    (builtPurchase doc today now m t).total_amount = t := by
  refine ⟨create_eq_some doc today now m t h1 h2 h3, ?_, ?_, rfl⟩
  · show purchaseItemsOf doc t ≠ []
    unfold purchaseItemsOf
    by_cases hp : (processItems doc.items).isEmpty = true
    · simp [hp]
    · simp only [hp]
      simp only [Bool.false_eq_true, if_false]
      intro hnil
      rw [hnil] at hp
      simp at hp
  · intro hp
    show purchaseItemsOf doc t = _
    unfold purchaseItemsOf
    simp [hp]

theorem C4_nonempty_items_witness :
    create_purchase_from_receipt_data docC4 "2026-10-12" "20261012101010" =
      some (builtPurchase docC4 "2026-10-12" "20261012101010" "Shop" 5) ∧
    (builtPurchase docC4 "2026-10-12" "20261012101010" "Shop" 5).items =
      [{ name := "Receipt total", price := 5, quantity := 1, category := "Other" }] := by
  have h := C4_nonempty_items docC4 "2026-10-12" "20261012101010" "Shop" 5 rfl
    (by decide) rfl
  exact ⟨h.1, h.2.2.1 rfl⟩

/-! ## Date round-trip lemmas: a zero-padded calendar-valid ISO date string is
parsed back by the first format and reprinted unchanged -/

theorem dchar_isDigit (k : ℕ) (h : k < 10) : (dchar k).isDigit = true := by
  interval_cases k <;> decide

theorem dchar_toNat_sub (k : ℕ) (h : k < 10) : (dchar k).toNat - 48 = k := by
  interval_cases k <;> decide

theorem readFixedDigits_digits4 (y : ℕ) (hy : y < 10000) (rest : List Char) :
    readFixedDigits 4 0 (digits4 y ++ rest) = some (y, rest) := by
  have h1 : y / 1000 % 10 < 10 := Nat.mod_lt _ (by norm_num)
  have h2 : y / 100 % 10 < 10 := Nat.mod_lt _ (by norm_num)
  have h3 : y / 10 % 10 < 10 := Nat.mod_lt _ (by norm_num)
  have h4 : y % 10 < 10 := Nat.mod_lt _ (by norm_num)
  simp only [digits4, List.cons_append, List.nil_append, readFixedDigits,
    dchar_isDigit _ h1, dchar_isDigit _ h2, dchar_isDigit _ h3, dchar_isDigit _ h4,
    if_true, dchar_toNat_sub _ h1, dchar_toNat_sub _ h2, dchar_toNat_sub _ h3,
    dchar_toNat_sub _ h4, Option.some.injEq, Prod.mk.injEq, and_true]
  omega

theorem readOneTwoDigits_digits2 (n : ℕ) (hn : n < 100) (rest : List Char) :
    readOneTwoDigits (digits2 n ++ rest) = some (n, rest) := by
  have h1 : n / 10 % 10 < 10 := Nat.mod_lt _ (by norm_num)
  have h2 : n % 10 < 10 := Nat.mod_lt _ (by norm_num)
  simp only [digits2, List.cons_append, List.nil_append, readOneTwoDigits,
    dchar_isDigit _ h1, dchar_isDigit _ h2, if_true, dchar_toNat_sub _ h1,
    dchar_toNat_sub _ h2, Option.some.injEq, Prod.mk.injEq, and_true]
  omega

theorem runFmt_iso_digits (y mo d : ℕ) (hy : y < 10000) (hmo : mo < 100) (hd : d < 100) :
    runFmt fmtIsoToks (digits4 y ++ '-' :: (digits2 mo ++ '-' :: digits2 d)) 0 0 0 =
      some (y, mo, d) := by
  have hlast := readOneTwoDigits_digits2 d hd []
  rw [List.append_nil] at hlast
  simp [fmtIsoToks, runFmt, readFixedDigits_digits4 y hy,
    readOneTwoDigits_digits2 mo hmo, hlast, Option.some_bind]

theorem daysInMonth_le_31 (y mo : ℕ) : daysInMonth y mo ≤ 31 := by
  unfold daysInMonth
  split_ifs <;> norm_num

theorem tryFormats_cons_some (f : List FTok) (fs : List (List FTok)) (cs : List Char)
    (r : ℕ × ℕ × ℕ) (h : parseWithFmt f cs = some r) :
    tryFormats (f :: fs) cs = some r := by
  unfold tryFormats
  rw [h]

theorem tryFormats_iso (y mo d : ℕ) (hv : validDate y mo d = true) :
    tryFormats dateFormatList (isoString y mo d).data = some (y, mo, d) := by
  have hb := hv
  simp only [validDate, Bool.and_eq_true, decide_eq_true_eq] at hb
  obtain ⟨⟨⟨⟨⟨hy1, hy2⟩, hm1⟩, hm2⟩, hd1⟩, hd2⟩ := hb
  have hy : y < 10000 := by omega
  have hmo : mo < 100 := by omega
  have hdd : d < 100 := by
    have := daysInMonth_le_31 y mo
    omega
  rw [dateFormatList]
  apply tryFormats_cons_some
  unfold parseWithFmt
  have hdata : (isoString y mo d).data = digits4 y ++ '-' :: (digits2 mo ++ '-' :: digits2 d) :=
    rfl
  rw [hdata, runFmt_iso_digits y mo d hy hmo hdd, Option.some_bind, if_pos hv]

theorem normalizeDateStr_isoString (y mo d : ℕ) (hv : validDate y mo d = true) :
    normalizeDateStr (isoString y mo d) = isoString y mo d := by
  unfold normalizeDateStr
  rw [tryFormats_iso y mo d hv]

/-- Claim C9: a document with a truthy merchant and coercible total but no
transaction date (directly or via the `date` alias) still normalizes; the
resulting Purchase's `transaction_date` is today's date (in its strftime
`YYYY-MM-DD` form `isoString y mo d`) and `notes` holds exactly the
substitution note. -/
theorem C9_date_fallback (doc : ReceiptDoc) (today now : String) (y mo d : ℕ)
    (m : String) (t : ℚ)
    (hv : validDate y mo d = true) (ht : today = isoString y mo d)
    (h1 : resolveMerchant doc = some m) (h2 : ¬(m = ""))
    (h3 : pyFloat? (resolveTotal doc) = some t)
    (hd : strTruthy (resolveDate doc) = false) :
    create_purchase_from_receipt_data doc today now = some (builtPurchase doc today now m t) ∧
    (builtPurchase doc today now m t).transaction_date = today ∧
    (builtPurchase doc today now m t).notes = [dateFallbackNote] := by
  refine ⟨create_eq_some doc today now m t h1 h2 h3, ?_, ?_⟩
  · show purchaseDateOf doc today = today
    unfold purchaseDateOf
    have hraw : (match resolveDate doc with
        | some s => if s = "" then today else s
        | none => today) = today := by
      cases hrd : resolveDate doc with
      | none => rfl
      | some s =>
        have hs : s = "" := by
          rw [hrd] at hd
          simpa [strTruthy] using hd
        simp [hs]
    rw [hraw, ht, normalizeDateStr_isoString y mo d hv]
  · show purchaseNotesOf doc = [dateFallbackNote]
    unfold purchaseNotesOf
    rw [hd]
    simp

theorem C9_date_fallback_witness :
    create_purchase_from_receipt_data docC9 "2026-10-12" "20261012101010" =
      some (builtPurchase docC9 "2026-10-12" "20261012101010" "Walmart" (1163/100)) ∧
    (builtPurchase docC9 "2026-10-12" "20261012101010" "Walmart" (1163/100)).transaction_date =
      "2026-10-12" ∧
    (builtPurchase docC9 "2026-10-12" "20261012101010" "Walmart" (1163/100)).notes =
      [dateFallbackNote] :=
  C9_date_fallback docC9 "2026-10-12" "20261012101010" 2026 10 12 "Walmart" (1163/100)
    (by decide) (by decide) rfl (by decide) rfl rfl

/-- Claim C5 counterexample: the normalizer path never derives the id from
`(merchant_name, transaction_date)`.  The dataclass default id is the current
wall-clock timestamp, so normalizing the very same receipt document at two
different times yields two different ids — the claimed "predictable
collision" does not happen. -/
theorem C5_counterexample_clock_id :
    (create_purchase_from_receipt_data dupDoc "2025-01-01" "20250101120000").map
      (fun p => p.id) = some "20250101120000" ∧
    (create_purchase_from_receipt_data dupDoc "2025-01-01" "20250101120001").map
      (fun p => p.id) = some "20250101120001" ∧
    ("20250101120000" : String) ≠ "20250101120001" := by
  refine ⟨?_, ?_, by decide⟩ <;> rfl

/-- Claim C5 as amended: the normalizer gives a Purchase whose missing id
defaults to the formatted wall-clock timestamp (independent of merchant and
date), while the deterministic `(merchant_name, transaction_date)`-plus-counter
derivation exists only in the JSON import scripts, where the assigned id
sequence is a pure function of the sequence of `merchant_date` keys. -/
theorem assignIds_cons_some (counts : List (String × ℕ)) (r : JsonRec) (rs : List JsonRec)
    (c : ℕ) (hc : counts.lookup (merchantKey r) = some c) :
    assignIds counts (r :: rs) =
      { r with id := uuid5dns (merchantKey r ++ "_" ++ toString (c + 1)) } ::
        assignIds (bumpAssoc counts (merchantKey r) (c + 1)) rs := by
  conv_lhs => rw [assignIds]
  rw [hc]

theorem assignIds_cons_none (counts : List (String × ℕ)) (r : JsonRec) (rs : List JsonRec)
    (hc : counts.lookup (merchantKey r) = none) :
    assignIds counts (r :: rs) =
      { r with id := uuid5dns (merchantKey r) } :: assignIds ((merchantKey r, 1) :: counts) rs := by
  conv_lhs => rw [assignIds]
  rw [hc]

theorem C5_id_derivation (doc : ReceiptDoc) (today now : String) (p : Purchase) :
    (create_purchase_from_receipt_data doc today now = some p → p.id = now) ∧
    (∀ rs1 rs2 : List JsonRec, rs1.map merchantKey = rs2.map merchantKey →
      (fix_json_ids rs1).map (fun r => r.id) = (fix_json_ids rs2).map (fun r => r.id)) := by
  constructor
  · intro h
    unfold create_purchase_from_receipt_data at h
    cases hm : resolveMerchant doc with
    | none => rw [hm] at h; simp at h
    | some m =>
      rw [hm] at h
      by_cases he : m = ""
      · simp [he] at h
      · simp only [he, if_false] at h
        cases ht : pyFloat? (resolveTotal doc) with
        | none => rw [ht] at h; simp at h
        | some t =>
          rw [ht] at h
          simp only [Option.some.injEq] at h
          rw [← h]
          rfl
  · have key : ∀ (counts : List (String × ℕ)) (rs1 rs2 : List JsonRec),
        rs1.map merchantKey = rs2.map merchantKey →
        (assignIds counts rs1).map (fun r => r.id) =
          (assignIds counts rs2).map (fun r => r.id) := by
      intro counts rs1
      induction rs1 generalizing counts with
      | nil =>
        intro rs2 h
        cases rs2 with
        | nil => rfl
        | cons r rs => simp at h
      | cons r1 tl1 ih =>
        intro rs2 h
        cases rs2 with
        | nil => simp at h
        | cons r2 tl2 =>
          simp only [List.map_cons, List.cons.injEq] at h
          obtain ⟨hk, htl⟩ := h
          cases hc : counts.lookup (merchantKey r2) with
          | some c =>
            rw [assignIds_cons_some counts r1 tl1 c (hk ▸ hc),
              assignIds_cons_some counts r2 tl2 c hc, List.map_cons, List.map_cons, hk,
              ih _ tl2 htl]
          | none =>
            rw [assignIds_cons_none counts r1 tl1 (hk ▸ hc),
              assignIds_cons_none counts r2 tl2 hc, List.map_cons, List.map_cons, hk,
              ih _ tl2 htl]
    intro rs1 rs2 h
    exact key [] rs1 rs2 h

theorem C5_id_derivation_witness :
    (create_purchase_from_receipt_data dupDoc "2025-01-01" "20250101120000" =
      some (builtPurchase dupDoc "2025-01-01" "20250101120000" "Walmart" (1163/100)) →
      (builtPurchase dupDoc "2025-01-01" "20250101120000" "Walmart" (1163/100)).id =
        "20250101120000") ∧
    (fix_json_ids [{ merchant_name := "A", transaction_date := "2024-01-01", id := "x" },
                   { merchant_name := "A", transaction_date := "2024-01-01", id := "y" }]).map
        (fun r => r.id) =
      (fix_json_ids [{ merchant_name := "A", transaction_date := "2024-01-01", id := "p" },
                     { merchant_name := "A", transaction_date := "2024-01-01", id := "q" }]).map
        (fun r => r.id) :=
  ⟨(C5_id_derivation dupDoc "2025-01-01" "20250101120000"
      (builtPurchase dupDoc "2025-01-01" "20250101120000" "Walmart" (1163/100))).1,
   (C5_id_derivation dupDoc "2025-01-01" "20250101120000"
      (builtPurchase dupDoc "2025-01-01" "20250101120000" "Walmart" (1163/100))).2
     _ _ rfl⟩

/-- Claim C6 counterexample: the code never checks non-negativity.  A document
with a negative total and a negative item price normalizes to a Purchase
holding exactly those negative values, so "a negative price or negative total
does not yield a valid item or Purchase" is false. -/
theorem C6_counterexample_negative_passthrough :
    create_purchase_from_receipt_data negDoc "2025-01-01" "20250101120000" =
      some { merchant_name := "Shop", transaction_date := "2024-01-02", total_amount := -5,
             items := [{ name := "Widget", price := -1, quantity := 1, category := "Other" }],
             currency := "USD", payment_method := none, notes := [],
             id := "20250101120000" } := by
  rfl

/-- Claim C6 as amended: an item's price and the document's total must merely
coerce to a float (sign unchecked): a failing `float(price)` drops only that
item, a failing `float(total_amount)` fails the whole normalization, and when
the total does coerce the purchase is still produced with exactly the items
that survived. -/
theorem C6_coercion_semantics (doc : ReceiptDoc) (today now : String) (it : ItemDoc)
    (m : String) (t : ℚ) :
    (pyFloat? (resolveTotal doc) = none →
      create_purchase_from_receipt_data doc today now = none) ∧
    (pyFloat? it.price = none → mkItem? it = none) ∧
    (resolveMerchant doc = some m → ¬(m = "") → pyFloat? (resolveTotal doc) = some t →
      create_purchase_from_receipt_data doc today now = some (builtPurchase doc today now m t)) := by
  refine ⟨?_, ?_, fun h1 h2 h3 => create_eq_some doc today now m t h1 h2 h3⟩
  · intro h
    unfold create_purchase_from_receipt_data
    cases hm : resolveMerchant doc with
    | none => simp
    | some mm =>
      by_cases he : mm = ""
      · simp [he]
      · simp [he, h]
  · intro h
    unfold mkItem?
    cases hn : it.name with
    | none => rfl
    | some nm =>
      by_cases he : nm = ""
      · simp [he]
      · simp only [he, if_false]
        cases hp : it.price with
        | nnull => rfl
        | nbool b => rw [hp] at h; simp [pyFloat?] at h
        | nint n => rw [hp] at h; simp [pyFloat?] at h
        | nfloat q => rw [hp] at h; simp [pyFloat?] at h
        | nstr s =>
          rw [hp] at h
          simp only [pyFloat?] at h
          simp [pyFloat?, h]

theorem C6_coercion_semantics_witness :
    create_purchase_from_receipt_data badTotalDoc "2025-01-01" "20250101120000" = none ∧
    mkItem? badPriceItem = none ∧
    create_purchase_from_receipt_data docC4 "2025-01-01" "20250101120000" =
      some (builtPurchase docC4 "2025-01-01" "20250101120000" "Shop" 5) :=
  ⟨(C6_coercion_semantics badTotalDoc "2025-01-01" "20250101120000" badPriceItem "Shop" 5).1 rfl,
   (C6_coercion_semantics badTotalDoc "2025-01-01" "20250101120000" badPriceItem "Shop" 5).2.1 rfl,
   (C6_coercion_semantics docC4 "2025-01-01" "20250101120000" badPriceItem "Shop" 5).2.2
     rfl (by decide) rfl⟩

/-! ## execute_query lemmas -/

theorem classifyStmt_select_of_selectAll (q : String)
    (hc : classifyStmt q = SqlStmt.selectAllPurchases) :
    startsWithSelect q = true := by
  by_cases hsw : startsWithSelect q = true
  · exact hsw
  · exfalso
    have hsw' : startsWithSelect q = false := by simpa using hsw
    unfold classifyStmt at hc
    rw [hsw'] at hc
    by_cases hd : stripTrailingJunk (pyLower (pyStrip q)) = "drop table purchases"
    · simp only [Bool.false_eq_true, if_false, if_pos hd] at hc
      exact absurd hc (by decide)
    · simp only [Bool.false_eq_true, if_false, if_neg hd] at hc
      exact absurd hc (by decide)

theorem sqliteExecute_fst_of_select (db : DB) (q : String)
    (hg : startsWithSelect q = true) :
    (sqliteExecute db q).1 = db := by
  unfold sqliteExecute classifyStmt
  rw [hg]
  split_ifs <;> first | rfl | simp_all

/-- Claim C7: `execute_query` raises for every input whose trimmed,
case-insensitive text does not begin with "select", leaving the state
untouched; and a single-statement query the modelled engine recognizes as the
full SELECT scan succeeds, returning the rows as field-name-keyed mappings. -/
theorem C7_select_guard (db : DB) (q : String) (fail : Bool) :
    (startsWithSelect q = false →
      execute_query db q fail = (db, Except.error "Only SELECT queries are allowed")) ∧
    (classifyStmt q = SqlStmt.selectAllPurchases → hasSecondStatement q = false →
      execute_query db q false = (db, Except.ok (db.purchases.map purchaseRowMapping))) := by
  constructor
  · intro h
    unfold execute_query
    rw [h]
    rfl
  · intro hc hs
    have hg : startsWithSelect q = true :=
      classifyStmt_select_of_selectAll q hc
    unfold execute_query
    rw [hg]
    show sqliteExecute db q = _
    unfold sqliteExecute
    rw [hs, hc]
    rfl

theorem C7_select_guard_witness :
    execute_query emptyDB "DROP TABLE purchases" false =
      (emptyDB, Except.error "Only SELECT queries are allowed") ∧
    execute_query exDB "SELECT * FROM purchases" false =
      (exDB, Except.ok (exDB.purchases.map purchaseRowMapping)) :=
  ⟨(C7_select_guard emptyDB "DROP TABLE purchases" false).1 (by decide),
   (C7_select_guard exDB "SELECT * FROM purchases" false).2 (by decide) (by decide)⟩

/-- Claim C8 counterexample: `execute_query` is a Store read path, yet an
unexpected error during its execution propagates to the caller instead of
producing an empty result sequence — its `except` block re-raises
(memory.py line 549). -/
theorem C8_counterexample_execute_query_propagates :
    execute_query emptyDB "select * from purchases" true =
      (emptyDB, Except.error "database error") ∧
    (Except.error "database error" :
      Except String (List (List (String × ColVal)))) ≠ Except.ok [] :=
  ⟨rfl, fun h => Except.noConfusion h⟩

/-- Claim C8 as amended: the four filtered read operations swallow unexpected
errors and return an empty sequence, while `execute_query` re-raises
execution errors past its guard, and the write operations (add, delete)
propagate the error after rolling the state back. -/
theorem C8_error_semantics (db : DB) (s1 sa sb s4 q : String) (p : Purchase) (pid : String) :
    get_all_purchases db true = [] ∧
    get_purchases_by_merchant db s1 true = [] ∧
    get_purchases_by_date_range db sa sb true = [] ∧
    get_purchases_by_category db s4 true = [] ∧
    (startsWithSelect q = true →
      execute_query db q true = (db, Except.error "database error")) ∧
    add_purchase db p true = (db, Except.error "database error") ∧
    delete_purchase db pid true = (db, Except.error "database error") := by
  refine ⟨rfl, rfl, rfl, rfl, ?_, rfl, rfl⟩
  intro h
  unfold execute_query
  rw [h]
  rfl

theorem C8_error_semantics_witness :
    get_all_purchases exDB true = [] ∧
    get_purchases_by_merchant exDB "wal" true = [] ∧
    get_purchases_by_date_range exDB "2024-01-01" "2024-12-31" true = [] ∧
    get_purchases_by_category exDB "grocery" true = [] ∧
    execute_query exDB "select 1" true = (exDB, Except.error "database error") ∧
    add_purchase exDB exPurchase1 true = (exDB, Except.error "database error") ∧
    delete_purchase exDB "P1" true = (exDB, Except.error "database error") := by
  have h := C8_error_semantics exDB "wal" "2024-01-01" "2024-12-31" "grocery" "select 1"
    exPurchase1 "P1"
  exact ⟨h.1, h.2.1, h.2.2.1, h.2.2.2.1, h.2.2.2.2.1 (by decide), h.2.2.2.2.2.1,
    h.2.2.2.2.2.2⟩

/-- Claim C10: `execute_query` never modifies the stored data or schema for
any input string — the guard blocks non-SELECT statements, the driver refuses
multi-statement strings (so "select 1; DROP TABLE purchases" raises instead of
executing the mutation), and a single SELECT statement is read-only — hence
the state after any call equals the state before it. -/
theorem C10_no_mutation (db : DB) (q : String) (fail : Bool) :
    (execute_query db q fail).1 = db ∧
    (execute_query db "select 1; DROP TABLE purchases" false).2 =
      Except.error "You can only execute one statement at a time." := by
  constructor
  · unfold execute_query
    by_cases hg : startsWithSelect q = true
    · rw [hg]
      cases fail with
      | true => rfl
      | false =>
        show (sqliteExecute db q).1 = db
        exact sqliteExecute_fst_of_select db q hg
    · have hg' : startsWithSelect q = false := by simpa using hg
      rw [hg']
      rfl
  · have hgc : startsWithSelect "select 1; DROP TABLE purchases" = true := by
      decide
    have hsc : hasSecondStatement "select 1; DROP TABLE purchases" = true := by decide
    unfold execute_query
    rw [hgc]
    show (sqliteExecute db "select 1; DROP TABLE purchases").2 = _
    unfold sqliteExecute
    rw [hsc]
    rfl

end Sticklet
